import Mathlib

/-!
# btc-tracker: ledger-data aggregation and normalization layer

A shallow embedding of the core of the `btc-tracker` service
(`src/services/blockchainService.js`, `src/routes/wallets.js`,
`src/routes/sync.js`) and proofs about it.

Modelling conventions:

* Upstream HTTP calls are modelled by passing the parsed upstream response
  (or its failure) in as an `Except String _` oracle; a service function
  that performs network I/O additionally returns a `Nat` counting how many
  upstream calls it issued, so that fetch-amplification properties can be
  stated.
* JavaScript numbers are modelled as exact arithmetic: integer amounts as
  `Int`, decimal (BTC-denominated) amounts as `Rat`.  `Math.round` is
  embedded by its ECMAScript definition: the closest integer, halves
  rounding toward positive infinity, i.e. `⌊x + 1/2⌋`.
* JavaScript truthiness tests on a possibly-null number (`tx.block_height ?
  … : …`, `tx.fee ? … : …`) are embedded by `truthyNum : Option Int →
  Bool`, which is `false` exactly on `none` and `some 0`.
-/

namespace BtcTracker

/-- JS truthiness of a nullable number: `null`/`undefined` and `0` are falsy. -/
def truthyNum : Option Int → Bool
  | none => false
  | some v => v != 0

/-! ## Upstream data model (parsed blockchain.info JSON) -/

/-- A transaction input's previous output (`input.prev_out`), possibly absent
(coinbase / unknown). -/
structure PrevOut where
  addr : Option String
  value : Int
deriving DecidableEq

/-- A raw transaction input. -/
structure TxInput where
  prev_out : Option PrevOut
deriving DecidableEq

/-- A raw transaction output. -/
structure TxOutput where
  addr : Option String
  value : Int
deriving DecidableEq

/-- A raw upstream transaction (`tx` in the source): `block_height` is `null`
for an unconfirmed transaction, `fee` may be absent. -/
structure RawTx where
  hash : String
  block_height : Option Int
  time : Int
  fee : Option Int
  inputs : List TxInput
  out : List TxOutput
deriving DecidableEq

/-- The `/latestblock` response (chain tip). -/
structure LatestBlock where
  height : Int
  hash : String
  time : Int
deriving DecidableEq

/-- One entry of the `/balance` response mapping. -/
structure BalanceSnapshot where
  final_balance : Int
  total_received : Int
  total_sent : Int
  n_tx : Int
deriving DecidableEq

/-- The `/rawaddr/{address}` response. -/
structure AddressInfo where
  final_balance : Int
  total_received : Int
  total_sent : Int
  n_tx : Int
  txs : List RawTx
deriving DecidableEq

/-- One entry of the `/multiaddr` response's `addresses` array. -/
structure MultiAddrEntry where
  address : String
  final_balance : Int
  n_tx : Int
deriving DecidableEq

/-- The `/multiaddr` response. -/
structure MultiAddressInfo where
  addresses : List MultiAddrEntry
  txs : List RawTx
deriving DecidableEq

/-! ## UnitConverter (`satoshisToBTC` / `btcToSatoshis`) -/

/-- `satoshisToBTC(satoshis) { return satoshis / 100000000; }` — JS number
division modelled as exact rational division. -/
def satoshisToBTC (satoshis : Int) : ℚ :=
  (satoshis : ℚ) / 100000000

/-- `btcToSatoshis(btc) { return Math.round(btc * 100000000); }` — ECMAScript
`Math.round` rounds to the closest integer, halves toward positive infinity:
`⌊x + 1/2⌋`. -/
def btcToSatoshis (btc : ℚ) : Int :=
  ⌊btc * 100000000 + 1 / 2⌋

/-- Round half away from zero, the rounding rule the spec's §4.3 names for
the inverse conversion.  Written from the spec's words, to be compared with
`btcToSatoshis`. -/
def roundHalfAwayFromZero (q : ℚ) : Int :=
  if 0 ≤ q then ⌊q + 1 / 2⌋ else -⌊-q + 1 / 2⌋

/-! ## LedgerClient (`BlockchainService` fetch operations)

Each operation takes the upstream's (parsed) response for the call it would
issue as an `Except String _` oracle, and returns `(result, upstreamCalls)`
where `upstreamCalls` counts the HTTP requests actually issued. -/

/-- `getMultipleBalances(addresses)`: returns `{}` without calling upstream
when the list is empty; otherwise issues one `/balance` call, rewrapping a
failure's message.  The mapping is modelled as an association list. -/
def getMultipleBalances (upstream : Except String (List (String × BalanceSnapshot)))
    (addresses : List String) :
    Except String (List (String × BalanceSnapshot)) × Nat :=
  if addresses.length = 0 then
    (Except.ok [], 0)
  else
    (match upstream with
      | Except.ok data => Except.ok data
      | Except.error msg => Except.error ("Failed to fetch balances: " ++ msg), 1)

/-- `getMultipleAddressInfo(addresses, limit, offset)`: returns
`{ addresses: [], txs: [] }` without calling upstream when the list is
empty; otherwise issues one `/multiaddr` call.  The `limit`/`offset` query
parameters only shape the upstream request and are elided. -/
def getMultipleAddressInfo (upstream : Except String MultiAddressInfo)
    (addresses : List String) :
    Except String MultiAddressInfo × Nat :=
  if addresses.length = 0 then
    (Except.ok ⟨[], []⟩, 0)
  else
    (match upstream with
      | Except.ok data => Except.ok data
      | Except.error msg =>
          Except.error ("Failed to fetch multiple address information: " ++ msg), 1)

/-- `getLatestBlock()`: always issues one `/latestblock` call. -/
def getLatestBlock (upstream : Except String LatestBlock) :
    Except String LatestBlock × Nat :=
  (match upstream with
    | Except.ok data => Except.ok data
    | Except.error msg => Except.error ("Failed to fetch latest block: " ++ msg), 1)

/-- `calculateConfirmations(blockHeight)`: fetches the latest block and
returns `Math.max(0, latestBlock.height - blockHeight + 1)`; a failed fetch
is caught and degraded to `0`.  Every call issues exactly one chain-tip
fetch. -/
def calculateConfirmations (tip : Except String LatestBlock) (blockHeight : Int) :
    Int × Nat :=
  match getLatestBlock tip with
  | (Except.ok b, n) => (max 0 (b.height - blockHeight + 1), n)
  | (Except.error _, n) => (0, n)

/-! ## Normalized transaction views (`src/routes/wallets.js`) -/

/-- Normalized `prev_out` with the value converted to BTC. -/
structure PrevOutView where
  addr : Option String
  value : ℚ
deriving DecidableEq

/-- Normalized transaction input. -/
structure TxInputView where
  prev_out : Option PrevOutView
deriving DecidableEq

/-- Normalized transaction output. -/
structure TxOutputView where
  addr : Option String
  value : ℚ
deriving DecidableEq

/-- A normalized transaction as produced by the wallets transaction views
(`GET /:address/transactions` and `GET /user/transactions`). -/
structure TxView where
  hash : String
  block_height : Option Int
  time : Int
  fee : ℚ
  confirmations : Int
  inputs : List TxInputView
  out : List TxOutputView
deriving DecidableEq

/-- The per-transaction formatting shared by both wallets transaction views:
`confirmations: tx.block_height ? await calculateConfirmations(tx.block_height) : 0`,
`fee: tx.fee ? satoshisToBTC(tx.fee) : 0`, inputs/outputs converted to BTC
with a `null` `prev_out` preserved.  Returns the view together with the
number of chain-tip fetches this transaction's formatting issued. -/
def formatTransaction (tip : Except String LatestBlock) (tx : RawTx) : TxView × Nat :=
  let conf : Int × Nat :=
    if truthyNum tx.block_height then
      calculateConfirmations tip (tx.block_height.getD 0)
    else
      (0, 0)
  (⟨tx.hash, tx.block_height, tx.time,
    (if truthyNum tx.fee then satoshisToBTC (tx.fee.getD 0) else 0),
    conf.1,
    tx.inputs.map (fun i => ⟨i.prev_out.map (fun p => ⟨p.addr, satoshisToBTC p.value⟩)⟩),
    tx.out.map (fun o => ⟨o.addr, satoshisToBTC o.value⟩)⟩,
   conf.2)

/-- `await Promise.all(txs.map(async tx => …))`: formats every transaction of
a response, totalling the chain-tip fetches issued. -/
def formatTransactions (tip : Except String LatestBlock) (txs : List RawTx) :
    List TxView × Nat :=
  (txs.map (fun tx => (formatTransaction tip tx).1),
   (txs.map (fun tx => (formatTransaction tip tx).2)).sum)

/-- The `GET /api/addresses/:address/transactions` response body (`data`). -/
structure AddressTxResponse where
  address : String
  total_transactions : Int
  transactions : List TxView
deriving DecidableEq

/-- `GET /api/addresses/:address/transactions`: a failing primary
`getAddressInfo` fetch is caught by the route's `try/catch` and becomes a
500 error; otherwise the transactions are formatted and returned. -/
def addressTransactionsRoute (addrInfo : Except String AddressInfo)
    (tip : Except String LatestBlock) (address : String) :
    Except String AddressTxResponse :=
  match addrInfo with
  | Except.error _ => Except.error "Failed to fetch address transactions"
  | Except.ok info =>
      Except.ok ⟨address, info.n_tx, (formatTransactions tip info.txs).1⟩

/-! ## `processTransaction` (`src/services/blockchainService.js`) -/

/-- The shape `processTransaction` returns. -/
structure ProcessedTx where
  hash : String
  block_height : Option Int
  time : Int
  value : Int
  fee : Int
  confirmations : Int
  is_incoming : Bool
deriving DecidableEq

/-- `processTransaction(tx, address)`: sums the outputs paying `address`
(incoming); if none, subtracts the inputs spent from `address` (outgoing);
reports `Math.abs(value)`, `tx.fee || 0`, and the same truthiness-guarded
confirmations computation as the wallets views. -/
def processTransaction (tip : Except String LatestBlock) (tx : RawTx)
    (address : String) : ProcessedTx × Nat :=
  let isIncoming := tx.out.any (fun o => o.addr == some address)
  let value : Int :=
    if isIncoming then
      (tx.out.filter (fun o => o.addr == some address)).foldl (fun a o => a + o.value) 0
    else
      tx.inputs.foldl
        (fun a i =>
          match i.prev_out with
          | some p => if p.addr == some address then a - p.value else a
          | none => a) 0
  let conf : Int × Nat :=
    if truthyNum tx.block_height then
      calculateConfirmations tip (tx.block_height.getD 0)
    else
      (0, 0)
  (⟨tx.hash, tx.block_height, tx.time, |value|, tx.fee.getD 0, conf.1, isIncoming⟩,
   conf.2)

/-! ## Balances-only view (`GET /api/sync/user/balances`, `src/routes/sync.js`) -/

/-- A stored `(user, address, label)` row as the route reads it. -/
structure AddressRecord where
  address : String
  label : Option String
deriving DecidableEq

/-- A balance snapshot with every monetary field converted to BTC. -/
structure BalanceView where
  final_balance : ℚ
  total_received : ℚ
  total_sent : ℚ
  n_tx : Int
deriving DecidableEq

/-- The per-address conversion the route applies to an upstream snapshot. -/
def toBalanceView (b : BalanceSnapshot) : BalanceView :=
  ⟨satoshisToBTC b.final_balance, satoshisToBTC b.total_received,
   satoshisToBTC b.total_sent, b.n_tx⟩

/-- One entry of the route's `balances` array: `balance` is `null` when the
upstream mapping has no entry for the address. -/
structure BalanceEntry where
  address : String
  label : Option String
  balance : Option BalanceView
deriving DecidableEq

/-- `addresses.map(addressRecord => ({ address, label, balance: balance ? {…} : null }))`
where `balance = balances[addressRecord.address]`. -/
def balanceResults (addresses : List AddressRecord)
    (balances : List (String × BalanceSnapshot)) : List BalanceEntry :=
  addresses.map (fun r =>
    ⟨r.address, r.label, (balances.lookup r.address).map toBalanceView⟩)

/-- The `GET /api/sync/user/balances` response body (`data`). -/
structure UserBalancesResponse where
  total_addresses : Nat
  balances : List BalanceEntry
deriving DecidableEq

/-- `GET /api/sync/user/balances`: short-circuits with an empty result for a
user with no addresses; otherwise fetches the balances mapping once and maps
every stored address to an entry, `null` when the mapping lacks it.  A failed
balances fetch becomes the route's 500 error. -/
def userBalancesRoute (addresses : List AddressRecord)
    (upstream : Except String (List (String × BalanceSnapshot))) :
    Except String UserBalancesResponse × Nat :=
  if addresses.length = 0 then
    (Except.ok ⟨0, []⟩, 0)
  else
    match getMultipleBalances upstream (addresses.map (·.address)) with
    | (Except.ok m, n) => (Except.ok ⟨addresses.length, balanceResults addresses m⟩, n)
    | (Except.error msg, n) => (Except.error ("Failed to fetch balances: " ++ msg), n)

/-! ## AddressValidator (`isValidBitcoinAddress`) -/

/-- The regex character class `[a-km-zA-HJ-NP-Z1-9]` (base58: no `l`, `I`,
`O`, `0`). -/
def isBase58Char (c : Char) : Bool :=
  (decide ('a' ≤ c) && decide (c ≤ 'k')) || (decide ('m' ≤ c) && decide (c ≤ 'z')) ||
  (decide ('A' ≤ c) && decide (c ≤ 'H')) || (decide ('J' ≤ c) && decide (c ≤ 'N')) ||
  (decide ('P' ≤ c) && decide (c ≤ 'Z')) || (decide ('1' ≤ c) && decide (c ≤ '9'))

/-- The regex character class `[a-z0-9]` (lower-case bech32 alphabet as the
source uses it). -/
def isBech32Char (c : Char) : Bool :=
  (decide ('a' ≤ c) && decide (c ≤ 'z')) || (decide ('0' ≤ c) && decide (c ≤ '9'))

/-- `^[13][a-km-zA-HJ-NP-Z1-9]{25,34}$`. -/
def legacyPattern (l : List Char) : Bool :=
  match l with
  | c :: body =>
      (c == '1' || c == '3') && decide (25 ≤ body.length) &&
        decide (body.length ≤ 34) && body.all isBase58Char
  | [] => false

/-- `^bc1[a-z0-9]{39,59}$`. -/
def segwitPattern (l : List Char) : Bool :=
  match l with
  | 'b' :: 'c' :: '1' :: body =>
      decide (39 ≤ body.length) && decide (body.length ≤ 59) && body.all isBech32Char
  | _ => false

/-- `^[2mn][a-km-zA-HJ-NP-Z1-9]{25,34}$`. -/
def testnetPattern (l : List Char) : Bool :=
  match l with
  | c :: body =>
      (c == '2' || c == 'm' || c == 'n') && decide (25 ≤ body.length) &&
        decide (body.length ≤ 34) && body.all isBase58Char
  | [] => false

/-- `^tb1[a-z0-9]{39,59}$`. -/
def testnetSegwitPattern (l : List Char) : Bool :=
  match l with
  | 't' :: 'b' :: '1' :: body =>
      decide (39 ≤ body.length) && decide (body.length ≤ 59) && body.all isBech32Char
  | _ => false

/-- `isValidBitcoinAddress(address)`: the disjunction of the four patterns. -/
def isValidBitcoinAddress (s : String) : Bool :=
  legacyPattern s.data || segwitPattern s.data ||
    testnetPattern s.data || testnetSegwitPattern s.data

/-! Spec-side address families, written from the spec's §4.1 wording; each is
a proposition about the string, to be compared with the source's patterns. -/

/-- Spec: legacy — prefix `1` or `3`, base58 body of length 25–34. -/
def MatchesLegacy (s : String) : Prop :=
  ∃ c body, s.data = c :: body ∧ (c = '1' ∨ c = '3') ∧
    25 ≤ body.length ∧ body.length ≤ 34 ∧ ∀ d ∈ body, isBase58Char d = true

/-- Spec: native-segwit mainnet — prefix `bc1`, bech32 body of length 39–59. -/
def MatchesSegwitMainnet (s : String) : Prop :=
  ∃ body, s.data = 'b' :: 'c' :: '1' :: body ∧
    39 ≤ body.length ∧ body.length ≤ 59 ∧ ∀ d ∈ body, isBech32Char d = true

/-- Spec: legacy testnet — prefix `2`, `m` or `n`, base58 body of length
25–34. -/
def MatchesTestnetLegacy (s : String) : Prop :=
  ∃ c body, s.data = c :: body ∧ (c = '2' ∨ c = 'm' ∨ c = 'n') ∧
    25 ≤ body.length ∧ body.length ≤ 34 ∧ ∀ d ∈ body, isBase58Char d = true

/-- Spec: native-segwit testnet — prefix `tb1`, bech32 body of length 39–59. -/
def MatchesTestnetSegwit (s : String) : Prop :=
  ∃ body, s.data = 't' :: 'b' :: '1' :: body ∧
    39 ≤ body.length ∧ body.length ≤ 59 ∧ ∀ d ∈ body, isBech32Char d = true

/-! ## Concrete fixtures -/

/-- A chain tip at height 105 (the spec's §8 end-to-end scenario). -/
def tip105 : LatestBlock := ⟨105, "tiphash", 1700000500⟩

/-- A confirmed transaction at block height 100. -/
def txA : RawTx :=
  ⟨"txA", some 100, 1700000000, some 1000,
   [⟨some ⟨some "addrIn", 600000⟩⟩], [⟨some "addrOut", 500000⟩]⟩

/-- A confirmed transaction at block height 101 with a coinbase input. -/
def txB : RawTx :=
  ⟨"txB", some 101, 1700000100, none, [⟨none⟩], [⟨some "addrOut", 400000⟩]⟩

/-- A transaction in the genesis block: upstream `block_height` is the
integer `0`. -/
def genesisTx : RawTx :=
  ⟨"genesisTx", some 0, 1231006505, none, [⟨none⟩],
   [⟨some "1A1zP1eP5QGefi2DMPTfTL5SLmv7DivfNa", 5000000000⟩]⟩

/-- A `/rawaddr` response holding `txA` and `txB`. -/
def info0 : AddressInfo := ⟨5000000000, 6000000000, 1000000000, 2, [txA, txB]⟩

/-- A stored address record (the genesis address). -/
def addrA : AddressRecord := ⟨"1A1zP1eP5QGefi2DMPTfTL5SLmv7DivfNa", some "genesis"⟩

/-- A stored address record unknown to the upstream balance endpoint. -/
def addrB : AddressRecord := ⟨"1BitcoinEaterAddressDontSendf59kuE", none⟩

/-- An upstream balance snapshot for `addrA`. -/
def snapA : BalanceSnapshot := ⟨5000000000, 5000000000, 0, 1⟩

/-! ## Helper lemmas: each source pattern agrees with its spec-side family -/

theorem legacyPattern_iff (s : String) : legacyPattern s.data = true ↔ MatchesLegacy s := by
  unfold legacyPattern MatchesLegacy
  cases h : s.data with
  | nil => simp
  | cons c body =>
    simp only [Bool.and_eq_true, Bool.or_eq_true, beq_iff_eq, decide_eq_true_eq,
      List.all_eq_true, List.cons.injEq]
    constructor
    · rintro ⟨⟨⟨hc, h25⟩, h34⟩, hall⟩
      exact ⟨c, body, ⟨rfl, rfl⟩, hc, h25, h34, hall⟩
    · rintro ⟨c', body', ⟨rfl, rfl⟩, hc, h25, h34, hall⟩
      exact ⟨⟨⟨hc, h25⟩, h34⟩, hall⟩

theorem segwitPattern_iff (s : String) :
    segwitPattern s.data = true ↔ MatchesSegwitMainnet s := by
  unfold segwitPattern MatchesSegwitMainnet
  split
  next body heq =>
    rw [heq]
    simp only [Bool.and_eq_true, decide_eq_true_eq, List.all_eq_true, List.cons.injEq,
      true_and]
    constructor
    · rintro ⟨⟨h39, h59⟩, hall⟩
      exact ⟨body, rfl, h39, h59, hall⟩
    · rintro ⟨body', ⟨rfl, rfl, rfl, rfl⟩, h39, h59, hall⟩
      exact ⟨⟨h39, h59⟩, hall⟩
  next hne =>
    constructor
    · intro h; exact absurd h (by simp)
    · rintro ⟨body, heq, -⟩
      exact (hne body heq).elim

theorem testnetPattern_iff (s : String) :
    testnetPattern s.data = true ↔ MatchesTestnetLegacy s := by
  unfold testnetPattern MatchesTestnetLegacy
  cases h : s.data with
  | nil => simp
  | cons c body =>
    simp only [Bool.and_eq_true, Bool.or_eq_true, beq_iff_eq, decide_eq_true_eq,
      List.all_eq_true, List.cons.injEq]
    constructor
    · rintro ⟨⟨⟨hc, h25⟩, h34⟩, hall⟩
      exact ⟨c, body, ⟨rfl, rfl⟩, or_assoc.mp hc, h25, h34, hall⟩
    · rintro ⟨c', body', ⟨rfl, rfl⟩, hc, h25, h34, hall⟩
      exact ⟨⟨⟨or_assoc.mpr hc, h25⟩, h34⟩, hall⟩

theorem testnetSegwitPattern_iff (s : String) :
    testnetSegwitPattern s.data = true ↔ MatchesTestnetSegwit s := by
  unfold testnetSegwitPattern MatchesTestnetSegwit
  split
  next body heq =>
    rw [heq]
    simp only [Bool.and_eq_true, decide_eq_true_eq, List.all_eq_true, List.cons.injEq,
      true_and]
    constructor
    · rintro ⟨⟨h39, h59⟩, hall⟩
      exact ⟨body, rfl, h39, h59, hall⟩
    · rintro ⟨body', ⟨rfl, rfl, rfl, rfl⟩, h39, h59, hall⟩
      exact ⟨⟨h39, h59⟩, hall⟩
  next hne =>
    constructor
    · intro h; exact absurd h (by simp)
    · rintro ⟨body, heq, -⟩
      exact (hne body heq).elim

/-! ## Claim theorems -/

/-- Claim C1 (code evaluated at the failing input): formatting a wallets
transaction response containing two confirmed transactions (block heights
100 and 101) issues one chain-tip fetch per transaction — 2 fetches in
total, not at most one shared fetch as the claim requires. -/
theorem per_transaction_tip_fetch_amplification :
    (formatTransactions (Except.ok tip105) [txA, txB]).2 = 2 := by
  rfl

/-- Claim C2 (counterexample): `getMultipleAddressInfo` invoked with an
empty address list returns the result `{ addresses: [], txs: [] }` without
issuing any upstream call — it does not fail with any error, so in
particular not with an `InvalidArgument` error. -/
theorem getMultipleAddressInfo_empty_not_error :
    getMultipleAddressInfo (Except.error "unused") [] =
      (Except.ok ⟨[], []⟩, 0) := by
  rfl

/-- Claim C2 (amended): the multi-address fetch operation, invoked with an
empty address list, short-circuits and returns the empty result
`{ addresses: [], txs: [] }` without calling upstream, whatever the
upstream would have answered. -/
theorem getMultipleAddressInfo_empty_short_circuit
    (upstream : Except String MultiAddressInfo) :
    getMultipleAddressInfo upstream [] = (Except.ok ⟨[], []⟩, 0) := by
  rfl

/-- Claim C4: round trip of the unit converter — for every non-negative
integer base-unit amount `b`, `btcToSatoshis (satoshisToBTC b) = b`. -/
theorem unit_conversion_roundtrip (b : ℕ) :
    btcToSatoshis (satoshisToBTC (b : Int)) = b := by
  unfold btcToSatoshis satoshisToBTC
  have h : ((b : Int) : ℚ) / 100000000 * 100000000 = (b : ℚ) := by
    push_cast; field_simp
  rw [h, Int.floor_eq_iff]
  constructor
  · push_cast; linarith
  · push_cast; linarith

/-- Claim C6 (counterexample): at the decimal input `-1/512` (whose product
with `10^8` is exactly `-195312.5`), `btcToSatoshis` returns `-195312`
(ECMAScript `Math.round`, halves toward positive infinity), while
round-half-away-from-zero demands `-195313`. -/
theorem btcToSatoshis_not_half_away_from_zero :
    btcToSatoshis (-(1 / 512) : ℚ) = -195312 ∧
    roundHalfAwayFromZero ((-(1 / 512) : ℚ) * 100000000) = -195313 ∧
    (-195312 : Int) ≠ -195313 := by
  refine ⟨?_, ?_, by decide⟩
  · unfold btcToSatoshis
    norm_num
  · unfold roundHalfAwayFromZero
    rw [if_neg (by norm_num)]
    norm_num

/-- Claim C6 (amended): `btcToSatoshis decimal` is `⌊decimal * 10^8 + 1/2⌋`,
i.e. rounding half toward positive infinity (ECMAScript `Math.round`),
which agrees with round-half-away-from-zero on every non-negative decimal
input; the forward direction `satoshisToBTC` is exact division by `10^8`. -/
theorem btcToSatoshis_rounding :
    (∀ q : ℚ, 0 ≤ q → btcToSatoshis q = roundHalfAwayFromZero (q * 100000000)) ∧
    (∀ s : Int, satoshisToBTC s = (s : ℚ) / 100000000) ∧
    (∀ q : ℚ, btcToSatoshis q = ⌊q * 100000000 + 1 / 2⌋) := by
  refine ⟨fun q hq => ?_, fun s => rfl, fun q => rfl⟩
  unfold btcToSatoshis roundHalfAwayFromZero
  rw [if_pos (mul_nonneg hq (by norm_num))]

/-- Claim C6 witness: the amended rounding agreement evaluated at the
non-negative input `1/512`. -/
theorem btcToSatoshis_rounding_witness :
    0 ≤ (1 / 512 : ℚ) ∧
    btcToSatoshis (1 / 512 : ℚ) = roundHalfAwayFromZero ((1 / 512 : ℚ) * 100000000) :=
  ⟨by norm_num, btcToSatoshis_rounding.1 (1 / 512) (by norm_num)⟩

/-- Claim C9: `getMultipleBalances` invoked with an empty address list
returns an empty mapping and issues zero upstream calls, whatever the
upstream would have answered. -/
theorem getMultipleBalances_empty_no_call
    (upstream : Except String (List (String × BalanceSnapshot))) :
    getMultipleBalances upstream [] = (Except.ok [], 0) := by
  rfl

/-- Claim C3 (counterexample): the genesis-block transaction — known block
height `0`, chain tip at height `105` — gets confirmations `0` from the
wallets formatting, not `105 - 0 + 1 = 106` as the claim's formula for a
transaction with a known block height demands. -/
theorem confirmations_height_zero_counterexample :
    (formatTransaction (Except.ok tip105) genesisTx).1.confirmations = 0 ∧
    (0 : Int) ≠ 105 - 0 + 1 := by
  refine ⟨rfl, by decide⟩

/-- Claim C3 (amended): in the wallets transaction views, a normalized
transaction with known block height `H ≥ 1` and a successful chain-tip
fetch returning height `T` gets confirmations `T - H + 1` when `T ≥ H` and
`0` when `T < H`; confirmations are never negative; and an unconfirmed
transaction (`block_height = null`) gets `0` confirmations without issuing
any chain-tip fetch.  (Height `0` is treated like `null`, and the sync
views emit transactions without a confirmations field.) -/
theorem confirmations_formula :
    (∀ (b : LatestBlock) (tx : RawTx) (h : Int), tx.block_height = some h → 1 ≤ h →
        (h ≤ b.height →
          (formatTransaction (Except.ok b) tx).1.confirmations = b.height - h + 1) ∧
        (b.height < h → (formatTransaction (Except.ok b) tx).1.confirmations = 0)) ∧
    (∀ (tip : Except String LatestBlock) (tx : RawTx),
        0 ≤ (formatTransaction tip tx).1.confirmations) ∧
    (∀ (tip : Except String LatestBlock) (tx : RawTx), tx.block_height = none →
        (formatTransaction tip tx).1.confirmations = 0 ∧
        (formatTransaction tip tx).2 = 0) := by
  refine ⟨?_, ?_, ?_⟩
  · intro b tx h hbh h1
    have hne : h ≠ 0 := by omega
    constructor
    · intro hle
      simp [formatTransaction, hbh, truthyNum, bne_iff_ne, hne,
        calculateConfirmations, getLatestBlock]
      omega
    · intro hlt
      simp [formatTransaction, hbh, truthyNum, bne_iff_ne, hne,
        calculateConfirmations, getLatestBlock]
      omega
  · intro tip tx
    by_cases ht : truthyNum tx.block_height
    · cases tip with
      | ok b =>
        simp [formatTransaction, ht, calculateConfirmations, getLatestBlock]
      | error e =>
        simp [formatTransaction, ht, calculateConfirmations, getLatestBlock]
    · simp [formatTransaction, ht]
  · intro tip tx hbh
    have ht : truthyNum tx.block_height = false := by rw [hbh]; rfl
    simp [formatTransaction, ht]

/-- Claim C3 witness: `txA` at block height 100 against a successful
chain-tip fetch at height 105 gets `105 - 100 + 1 = 6` confirmations. -/
theorem confirmations_formula_witness :
    (formatTransaction (Except.ok tip105) txA).1.confirmations = 105 - 100 + 1 :=
  (confirmations_formula.1 tip105 txA 100 rfl (by decide)).1 (by decide)

/-- Claim C5: when the primary address fetch succeeds but the chain-tip
fetch fails, `GET /:address/transactions` still produces its response
(balance and transaction listing), with confirmations degraded to `0` for
every transaction; the chain-tip failure never fails the whole operation. -/
theorem tip_failure_degrades (info : AddressInfo) (msg address : String) :
    ∃ resp,
      addressTransactionsRoute (Except.ok info) (Except.error msg) address =
        Except.ok resp ∧
      resp.transactions.length = info.txs.length ∧
      ∀ v ∈ resp.transactions, v.confirmations = 0 := by
  refine ⟨⟨address, info.n_tx, (formatTransactions (Except.error msg) info.txs).1⟩,
    rfl, ?_, ?_⟩
  · simp [formatTransactions]
  · intro v hv
    simp only [formatTransactions, List.mem_map] at hv
    obtain ⟨tx, -, rfl⟩ := hv
    by_cases ht : truthyNum tx.block_height <;>
      simp [formatTransaction, ht, calculateConfirmations, getLatestBlock]

/-- Claim C5 witness: the degradation evaluated at a concrete two-transaction
response and a failing chain-tip fetch. -/
theorem tip_failure_degrades_witness :
    ∃ resp,
      addressTransactionsRoute (Except.ok info0) (Except.error "timeout") "addr" =
        Except.ok resp ∧
      resp.transactions.length = info0.txs.length ∧
      ∀ v ∈ resp.transactions, v.confirmations = 0 :=
  tip_failure_degrades info0 "timeout" "addr"

/-- Claim C10: a transaction whose upstream `block_height` is the integer
`0` gets confirmations `0` and issues no chain-tip fetch, both in the
wallets views' formatting and in `processTransaction`, because the block
height is tested for truthiness; it is treated exactly like an unconfirmed
(`block_height = null`) transaction. -/
theorem height_zero_treated_unconfirmed :
    ∀ (tip : Except String LatestBlock) (tx : RawTx) (address : String),
      tx.block_height = some 0 →
      (formatTransaction tip tx).1.confirmations = 0 ∧
      (formatTransaction tip tx).2 = 0 ∧
      (processTransaction tip tx address).1.confirmations = 0 ∧
      (processTransaction tip tx address).2 = 0 ∧
      (formatTransaction tip tx).1.confirmations =
        (formatTransaction tip { tx with block_height := none }).1.confirmations ∧
      (formatTransaction tip tx).2 =
        (formatTransaction tip { tx with block_height := none }).2 := by
  intro tip tx address hbh
  simp [formatTransaction, processTransaction, truthyNum, hbh]

/-- Claim C10 witness: the genesis-block transaction against a live chain
tip at height 105. -/
theorem height_zero_treated_unconfirmed_witness :
    (formatTransaction (Except.ok tip105) genesisTx).1.confirmations = 0 ∧
    (formatTransaction (Except.ok tip105) genesisTx).2 = 0 ∧
    (processTransaction (Except.ok tip105) genesisTx "x").1.confirmations = 0 ∧
    (processTransaction (Except.ok tip105) genesisTx "x").2 = 0 ∧
    (formatTransaction (Except.ok tip105) genesisTx).1.confirmations =
      (formatTransaction (Except.ok tip105)
        { genesisTx with block_height := none }).1.confirmations ∧
    (formatTransaction (Except.ok tip105) genesisTx).2 =
      (formatTransaction (Except.ok tip105)
        { genesisTx with block_height := none }).2 :=
  height_zero_treated_unconfirmed (Except.ok tip105) genesisTx "x" rfl

/-- Claim C7: the balances-only view, for any requested address set and any
successfully returned upstream balance mapping, succeeds and produces one
entry per stored address in order; an address absent from the mapping
appears with a `null` balance (the key is present, its balance is `null`),
never omitted and never an error. -/
theorem balances_missing_address_null :
    ∀ (addresses : List AddressRecord) (m : List (String × BalanceSnapshot)),
      ∃ resp, (userBalancesRoute addresses (Except.ok m)).1 = Except.ok resp ∧
        resp.balances.map BalanceEntry.address = addresses.map AddressRecord.address ∧
        (∀ r ∈ addresses,
          BalanceEntry.mk r.address r.label ((m.lookup r.address).map toBalanceView) ∈
            resp.balances) ∧
        (∀ r ∈ addresses, m.lookup r.address = none →
          BalanceEntry.mk r.address r.label none ∈ resp.balances) := by
  intro addresses m
  by_cases h : addresses.length = 0
  · have he : addresses = [] := List.length_eq_zero.mp h
    subst he
    exact ⟨⟨0, []⟩, rfl, rfl, by simp, by simp⟩
  · refine ⟨⟨addresses.length, balanceResults addresses m⟩, ?_, ?_, ?_, ?_⟩
    · simp [userBalancesRoute, getMultipleBalances, h]
    · simp [balanceResults, Function.comp]
    · intro r hr
      simp only [balanceResults, List.mem_map]
      exact ⟨r, hr, rfl⟩
    · intro r hr hnone
      simp only [balanceResults, List.mem_map]
      exact ⟨r, hr, by rw [hnone]; rfl⟩

/-- Claim C7 witness: addresses `[addrA, addrB]` with upstream data only for
`addrA` — the result contains `addrA` with its converted snapshot and
`addrB` with a `null` balance. -/
theorem balances_missing_address_null_witness :
    ∃ resp,
      (userBalancesRoute [addrA, addrB]
        (Except.ok [(addrA.address, snapA)])).1 = Except.ok resp ∧
      resp.balances.map BalanceEntry.address =
        [addrA, addrB].map AddressRecord.address ∧
      (∀ r ∈ [addrA, addrB],
        BalanceEntry.mk r.address r.label
          (([(addrA.address, snapA)].lookup r.address).map toBalanceView) ∈
          resp.balances) ∧
      (∀ r ∈ [addrA, addrB], [(addrA.address, snapA)].lookup r.address = none →
        BalanceEntry.mk r.address r.label none ∈ resp.balances) :=
  balances_missing_address_null [addrA, addrB] [(addrA.address, snapA)]

/-- Claim C8: `isValidBitcoinAddress` accepts a string exactly when it
belongs to one of the four fixed-format families (legacy, native-segwit
mainnet `bc1`, legacy testnet, native-segwit testnet `tb1`); in particular
it accepts the genesis address and rejects `"notanaddress"` and the empty
string.  The embedding is a total pure function, so there is no side effect
and no failure mode beyond returning `false`. -/
theorem isValid_four_families :
    (∀ s : String, isValidBitcoinAddress s = true ↔
        (MatchesLegacy s ∨ MatchesSegwitMainnet s ∨
          MatchesTestnetLegacy s ∨ MatchesTestnetSegwit s)) ∧
    isValidBitcoinAddress "1A1zP1eP5QGefi2DMPTfTL5SLmv7DivfNa" = true ∧
    isValidBitcoinAddress "notanaddress" = false ∧
    isValidBitcoinAddress "" = false := by
  refine ⟨fun s => ?_, by decide, by decide, by decide⟩
  unfold isValidBitcoinAddress
  rw [Bool.or_eq_true, Bool.or_eq_true, Bool.or_eq_true,
    legacyPattern_iff, segwitPattern_iff, testnetPattern_iff, testnetSegwitPattern_iff]
  tauto

/-- Claim C8 witness: a `bc1`-prefixed string with a 42-character bech32
body is accepted, via the family characterization. -/
theorem isValid_four_families_witness :
    isValidBitcoinAddress "bc1qqqqqqqqqqqqqqqqqqqqqqqqqqqqqqqqqqqqqqqqqq" = true :=
  (isValid_four_families.1 _).mpr
    (Or.inr (Or.inl ⟨List.replicate 42 'q', by decide, by decide, by decide, by decide⟩))

end BtcTracker
